import Mathlib

/-!
Shallow embedding of the brick-battery adaptive setpoint controller
(`brick_battery.py`, `daikin_api.py`).

Modelling conventions:
- Python floats that can be NaN (grid import, PV generation, consumption
  estimates, targets) are `Option ℚ`; `none` stands for NaN.
- Temperatures and wattages are exact rationals; the control values the
  code manipulates are integer or half-integer degrees, so no precision is
  lost.
- The loosely typed `controls` and `sensors` dictionaries are records of
  `Option` fields; a `none` field models a missing key.  The string codes
  that the Daikin API uses for power and mode are kept as strings.
- The two unbounded `while` loops of the allocator are modelled with an
  explicit fuel parameter; a `some` result means the Python loop reached
  its exit condition and returned exactly that value, `none` means the
  fuel ran out or the Python code raised (`min`/`max` over an empty
  sequence).  All theorems only draw conclusions from `some` results.
-/

/-- Value of `controls['pow']` meaning the unit is turned on. -/
def POW_ON : String := "1"

/-- Value of `controls['mode']` meaning heating mode. -/
def MODE_HEAT : String := "4"

/-- Controls dictionary of one Daikin unit (`Aircon.controls`). -/
structure Controls where
  pow : Option String
  mode : Option String
  stemp : Option ℚ
  shum : Option ℤ
deriving DecidableEq, Repr

/-- Sensors dictionary of one Daikin unit (`Aircon.sensors`). -/
structure Sensors where
  htemp : Option ℚ
  cmpfreq : Option ℤ
deriving DecidableEq, Repr

/-- One air-conditioning unit (`daikin_api.Aircon`), restricted to the
state the controller reads and writes. -/
structure Aircon where
  controls : Controls
  sensors : Sensors
  max_consumption : ℚ
  consumption_per_degree : ℚ
  humidifier_consumption : ℚ
deriving DecidableEq, Repr

/-- Controller configuration (the fields of `config.yaml` the control
logic reads). -/
structure Config where
  min_load : ℚ
  max_load : ℚ
  sleep_threshold : ℚ
  wakeup_threshold : ℚ
  set_interval : ℚ
  max_htemp : ℤ
  max_shum : ℤ
  control_humidity : Bool
  operation : Bool
  sleep_mode_settings : Controls
deriving DecidableEq, Repr

/-- Estimated consumption of one unit (`Aircon.get_consumption`):
`cmpfreq * 20` plus a flat 200 W when the humidifier is set, NaN when the
compressor frequency or humidity setting is missing. -/
def get_consumption (u : Aircon) : Option ℚ :=
  match u.sensors.cmpfreq, u.controls.shum with
  | some f, some sh => some ((f : ℚ) * 20 + (if 0 < sh then 200 else 0))
  | _, _ => none

/-- Combined estimated consumption
(`BrickBatteryCharger.estimate_ac_consumption`): sum of the non-NaN
per-unit estimates, NaN when no unit produced a valid estimate. -/
def estimate_ac_consumption (acs : List Aircon) : Option ℚ :=
  let cs := acs.filterMap get_consumption
  if cs.isEmpty then none else some cs.sum

/-- Sum of the fleet `max_consumption` values, as used by
`calculate_target`. -/
def fleet_max_consumption (acs : List Aircon) : ℚ :=
  (acs.map (fun u => u.max_consumption)).sum

/-- Target wattage delta (`BrickBatteryCharger.calculate_target`).
`none` models the NaN inputs and output. -/
def calculate_target (cfg : Config) (acs : List Aircon)
    (load consumption : Option ℚ) : Option ℚ :=
  match load, consumption with
  | some l, some c =>
    if cfg.min_load < l ∧ l < cfg.max_load then
      some 0
    else
      let avg_load_target := (cfg.max_load + cfg.min_load) / 2
      if cfg.max_load < l ∧ 0 < c then
        some (-(min (l - avg_load_target) c))
      else if l < cfg.min_load ∧ c < fleet_max_consumption acs then
        some (min (avg_load_target - l) (fleet_max_consumption acs))
      else
        some 0
  | _, _ => none

/-- Lexicographic minimum of `(value, index)` pairs as computed by the
Python `min((value, index) for ...)` in `increase_temp_for_target`: the
smallest value wins, ties go to the smallest index. -/
def lexMinIdx : List ℚ → Option (ℚ × ℕ)
  | [] => none
  | x :: xs =>
    match lexMinIdx xs with
    | none => some (x, 0)
    | some (v, j) => if v < x then some (v, j + 1) else some (x, 0)

/-- Lexicographic maximum of `(value, index)` pairs as computed by the
Python `max((value, index) for ...)` in `decrease_temp_for_target`: the
largest value wins, ties go to the largest index. -/
def lexMaxIdx : List ℚ → Option (ℚ × ℕ)
  | [] => none
  | x :: xs =>
    match lexMaxIdx xs with
    | none => some (x, 0)
    | some (v, j) => if x ≤ v then some (v, j + 1) else some (x, 0)

/-- Temperature step of the increase loop: one degree when the current
setpoint is a whole number (`stemp % 1 == 0`), half a degree otherwise. -/
def incStepSize (s : ℚ) : ℚ :=
  if s.den = 1 then 1 else 1 / 2

/-- Temperature step of the decrease loop: one degree when the current
setpoint is whole and the margin is at least one degree, half a degree
otherwise. -/
def decStepSize (s maxDiff : ℚ) : ℚ :=
  if s.den = 1 ∧ 1 ≤ maxDiff then 1 else 1 / 2

/-- Index selection of one iteration of the increase loop: the unit with
the smallest `stemp + htemp`; if that one is already at 30 or more, the
unit with the smallest `stemp`; `some none` is the Python `break` when
every setpoint is at 30 or more, and `none` is the `ValueError` that
`min` raises on an empty unit list. -/
def incPick (st ht : List ℚ) : Option (Option ℕ) :=
  match lexMinIdx (List.zipWith (fun s h => s + h) st ht) with
  | none => none
  | some (_, i) =>
    if 30 ≤ st.getD i 0 then
      match lexMinIdx st with
      | none => none
      | some (m, j) => if 30 ≤ m then some none else some (some j)
    else some (some i)

/-- Index selection of one iteration of the decrease loop: the unit with
the largest margin `stemp - htemp + 3.5`, together with that margin;
`some none` is the Python `break` when the largest margin is not
positive, and `none` is the `ValueError` of `max` on an empty list. -/
def decPick (st ht : List ℚ) : Option (Option (ℕ × ℚ)) :=
  match lexMaxIdx (List.zipWith (fun s h => s - h + 7 / 2) st ht) with
  | none => none
  | some (v, i) => if v ≤ 0 then some none else some (some (i, v))

/-- Temperature-raising loop of `increase_temp_for_target` (`while
target > 0`), with explicit fuel.  The state is the list of setpoints, the
remaining target and the `setting_change` flag. -/
def increaseLoop (ht cpd : List ℚ) :
    ℕ → List ℚ → ℚ → Bool → Option (List ℚ × ℚ × Bool)
  | 0, st, target, changed =>
    if target ≤ 0 then some (st, target, changed) else none
  | fuel + 1, st, target, changed =>
    if target ≤ 0 then some (st, target, changed)
    else
      match incPick st ht with
      | none => none
      | some none => some (st, target, changed)
      | some (some i) =>
        let s := st.getD i 0
        let step := incStepSize s
        increaseLoop ht cpd fuel (st.set i (s + step))
          (target - step * cpd.getD i 0) true

/-- Temperature-lowering loop of `decrease_temp_for_target` (`while
target < 0`), with explicit fuel. -/
def decreaseLoop (ht cpd : List ℚ) :
    ℕ → List ℚ → ℚ → Bool → Option (List ℚ × ℚ × Bool)
  | 0, st, target, changed =>
    if 0 ≤ target then some (st, target, changed) else none
  | fuel + 1, st, target, changed =>
    if 0 ≤ target then some (st, target, changed)
    else
      match decPick st ht with
      | none => none
      | some none => some (st, target, changed)
      | some (some (i, maxDiff)) =>
        let s := st.getD i 0
        let step := decStepSize s maxDiff
        decreaseLoop ht cpd fuel (st.set i (s - step))
          (target + step * cpd.getD i 0) true

/-- Overheat guard of `increase_temp_for_target`: every unit whose room
temperature exceeds `max_htemp` has its setpoint forced to
`2 * max_htemp - htemp`, crediting the wattage difference back to the
target.  Arguments are the parallel setpoint, room-temperature and
consumption-per-degree lists. -/
def overheatGuard (maxHtemp : ℚ) :
    List ℚ → List ℚ → List ℚ → ℚ → List ℚ × ℚ × Bool
  | s :: ss, h :: hs, c :: cs, t =>
    if maxHtemp < h then
      let ns := 2 * maxHtemp - h
      let r := overheatGuard maxHtemp ss hs cs (t + |s - ns| * c)
      (ns :: r.1, r.2.1, true)
    else
      let r := overheatGuard maxHtemp ss hs cs t
      (s :: r.1, r.2.1, r.2.2)
  | ss, _, _, t => (ss, t, false)

/-- Humidifier phase of `increase_temp_for_target`: while the remaining
target is positive, turn each unit not yet at `max_shum` to `max_shum`
(when humidity control is enabled), crediting its humidifier consumption;
the Python `break` on `target <= 0` stops the walk. -/
def humidityOn (maxShum : ℤ) (ctrlHum : Bool) :
    List ℤ → List ℚ → ℚ → List ℤ × ℚ × Bool
  | sh :: shs, hw :: hws, t =>
    if t ≤ 0 then (sh :: shs, t, false)
    else if sh ≠ maxShum ∧ ctrlHum = true then
      let r := humidityOn maxShum ctrlHum shs hws (t - hw)
      (maxShum :: r.1, r.2.1, true)
    else
      let r := humidityOn maxShum ctrlHum shs hws t
      (sh :: r.1, r.2.1, r.2.2)
  | shs, _, t => (shs, t, false)

/-- Humidifier phase of `decrease_temp_for_target`: turn humidity off on
every unit whose (already lowered) setpoint is at most 26 and whose
humidity is still on, when humidity control is enabled; not credited to
the target. -/
def humidityOff (ctrlHum : Bool) : List ℚ → List ℤ → List ℤ × Bool
  | s :: ss, sh :: shs =>
    if s ≤ 26 ∧ sh ≠ 0 ∧ ctrlHum = true then
      let r := humidityOff ctrlHum ss shs
      (0 :: r.1, true)
    else
      let r := humidityOff ctrlHum ss shs
      (sh :: r.1, r.2)
  | _, shs => (shs, false)

/-- Active-unit filter of the allocator: the unit reports `stemp`, `shum`
and `htemp` and its power is on. -/
def activeP (u : Aircon) : Bool :=
  u.controls.stemp.isSome && u.controls.shum.isSome &&
    u.sensors.htemp.isSome && (u.controls.pow == some POW_ON)

/-- Setpoint list of the active units (`stemp = [float(...)]`). -/
def activeStemp (acs : List Aircon) : List ℚ :=
  (acs.filter activeP).map fun u => (u.controls.stemp).getD 0

/-- Room-temperature list of the active units. -/
def activeHtemp (acs : List Aircon) : List ℚ :=
  (acs.filter activeP).map fun u => (u.sensors.htemp).getD 0

/-- Humidity-setting list of the active units. -/
def activeShum (acs : List Aircon) : List ℤ :=
  (acs.filter activeP).map fun u => (u.controls.shum).getD 0

/-- Consumption-per-degree list of the active units. -/
def activeCpd (acs : List Aircon) : List ℚ :=
  (acs.filter activeP).map fun u => u.consumption_per_degree

/-- Humidifier-consumption list of the active units. -/
def activeHw (acs : List Aircon) : List ℚ :=
  (acs.filter activeP).map fun u => u.humidifier_consumption

/-- Commit phase of the allocator: write the computed setpoint and
humidity values back into the controls of the active units, in order;
inactive units are untouched. -/
def commitActive : List Aircon → List ℚ → List ℤ → List Aircon
  | [], _, _ => []
  | u :: us, sts, shs =>
    if activeP u then
      match sts, shs with
      | s :: sts2, h :: shs2 =>
        { u with controls := { u.controls with stemp := some s, shum := some h } }
          :: commitActive us sts2 shs2
      | _, _ => u :: us
    else
      u :: commitActive us sts shs

/-- Model of `BrickBatteryCharger.increase_temp_for_target`: temperature
loop, overheat guard, humidifier phase, then commit when anything
changed.  Returns the new unit list and the `setting_change` flag. -/
def increase_temp_for_target (cfg : Config) (fuel : ℕ) (acs : List Aircon)
    (target : ℚ) : Option (List Aircon × Bool) :=
  match increaseLoop (activeHtemp acs) (activeCpd acs) fuel
      (activeStemp acs) target false with
  | none => none
  | some (st1, t1, ch1) =>
    let g := overheatGuard (cfg.max_htemp : ℚ) st1 (activeHtemp acs) (activeCpd acs) t1
    let hm := humidityOn cfg.max_shum cfg.control_humidity (activeShum acs) (activeHw acs) g.2.1
    let changed := ch1 || g.2.2 || hm.2.2
    if changed then some (commitActive acs g.1 hm.1, true)
    else some (acs, false)

/-- Model of `BrickBatteryCharger.decrease_temp_for_target`: temperature
loop, humidifier-off phase, then commit when anything changed. -/
def decrease_temp_for_target (cfg : Config) (fuel : ℕ) (acs : List Aircon)
    (target : ℚ) : Option (List Aircon × Bool) :=
  match decreaseLoop (activeHtemp acs) (activeCpd acs) fuel
      (activeStemp acs) target false with
  | none => none
  | some (st1, _, ch1) =>
    let hf := humidityOff cfg.control_humidity st1 (activeShum acs)
    let changed := ch1 || hf.2
    if changed then some (commitActive acs st1 hf.1, true)
    else some (acs, false)

/-- Result of one allocation call (`set_ac_controls`): the unit list
after any in-place mutation, the `setting_change` flag, and the list of
units a control-write command was dispatched to. -/
structure AllocResult where
  units : List Aircon
  setting_change : Bool
  commands : List Aircon
deriving DecidableEq, Repr

/-- Sanity gate of `set_ac_controls`: some unit is powered on but not in
heating mode. -/
def badModeUnit (acs : List Aircon) : Bool :=
  acs.any fun u =>
    decide (u.controls.pow = some POW_ON ∧ u.controls.mode ≠ some MODE_HEAT)

/-- Model of `BrickBatteryCharger.set_ac_controls`: abort on the sanity
gate, run the increase path for positive targets and the decrease path
otherwise, and dispatch a command to every unit when a change was made
and operation mode is on. -/
def set_ac_controls (cfg : Config) (fuel : ℕ) (acs : List Aircon)
    (target : ℚ) : Option AllocResult :=
  if badModeUnit acs then some ⟨acs, false, []⟩
  else
    match (if 0 < target then increase_temp_for_target cfg fuel acs target
           else decrease_temp_for_target cfg fuel acs target) with
    | none => none
    | some (acs2, changed) =>
      if changed = false then some ⟨acs, false, []⟩
      else if cfg.operation = false then some ⟨acs2, true, []⟩
      else some ⟨acs2, true, acs2⟩

/-- Comparison `pv <= threshold` on a possibly-NaN reading: Python float
comparisons with NaN are false. -/
def oLe (pv : Option ℚ) (t : ℚ) : Bool :=
  match pv with
  | some p => decide (p ≤ t)
  | none => false

/-- Comparison `pv >= threshold` on a possibly-NaN reading. -/
def oGe (pv : Option ℚ) (t : ℚ) : Bool :=
  match pv with
  | some p => decide (t ≤ p)
  | none => false

/-- Mutable controller state carried across cycles
(`is_sleep_mode`, the unit objects, `last_set`). -/
structure LoopState where
  is_sleep_mode : Bool
  acs : List Aircon
  last_set : Option ℚ
deriving DecidableEq, Repr

/-- Observable outcome of one `read_set_step` cycle: the new controller
state, whether the sleep profile was pushed, the computed target
(`none` when the cycle is asleep and skips the computation, `some none`
when it was computed and is NaN), whether `set_ac_controls` was invoked,
and the units that were sent a control-write command. -/
structure StepResult where
  state : LoopState
  sleepPush : Bool
  target : Option (Option ℚ)
  allocInvoked : Bool
  commands : List Aircon
deriving DecidableEq, Repr

/-- Sleep/wake transition at the top of `read_set_step`: returns the new
sleep flag, the (possibly sleep-profiled) unit list and whether the
sleep profile push happened. -/
def sleepTransition (cfg : Config) (s : LoopState) (pv : Option ℚ) :
    Bool × List Aircon × Bool :=
  if oLe pv cfg.sleep_threshold && !s.is_sleep_mode then
    if cfg.operation then
      (true, s.acs.map fun u => { u with controls := cfg.sleep_mode_settings }, true)
    else (true, s.acs, false)
  else if oGe pv cfg.wakeup_threshold && s.is_sleep_mode then
    (false, s.acs, false)
  else (s.is_sleep_mode, s.acs, false)

/-- Guard `target != 0 and not isnan(target)` of `read_set_step`. -/
def targetActionable : Option ℚ → Bool
  | some v => v != 0
  | none => false

/-- Model of `BrickBatteryCharger.read_set_step` for one cycle, given
the polled grid import and PV generation: evaluate the sleep/wake
transition, estimate consumption, and, when awake, compute the target
and invoke the allocator once the set interval elapsed and the target is
nonzero and not NaN. -/
def read_set_step (cfg : Config) (fuel : ℕ) (s : LoopState)
    (grid pv : Option ℚ) (now : ℚ) : Option StepResult :=
  let tr := sleepTransition cfg s pv
  let acs1 := tr.2.1
  if tr.1 then
    some ⟨⟨true, acs1, s.last_set⟩, tr.2.2, none, false,
      if tr.2.2 then acs1 else []⟩
  else
    let target := calculate_target cfg acs1 grid (estimate_ac_consumption acs1)
    let nextSet : ℚ :=
      match s.last_set with
      | some t => t + cfg.set_interval - now
      | none => 0
    if nextSet ≤ 0 ∧ targetActionable target = true then
      match set_ac_controls cfg fuel acs1 (target.getD 0) with
      | none => none
      | some r =>
        some ⟨⟨false, r.units, some now⟩, tr.2.2, some target, true, r.commands⟩
    else
      some ⟨⟨false, acs1, s.last_set⟩, tr.2.2, some target, false, []⟩

/-- Being an integer multiple of half a degree. -/
def isHalfStep (q : ℚ) : Prop := ∃ n : ℤ, q = n / 2

/-- Concrete configuration used by the scenario runs: load band
[0, 400], sleep thresholds 200/500, humidity control enabled, operation
mode on. -/
def cfg6 : Config :=
  ⟨0, 400, 200, 500, 60, 27, 50, true, true,
    ⟨some POW_ON, some MODE_HEAT, some 18, some 0⟩⟩

/-- Same concrete configuration with humidity control disabled. -/
def cfgH : Config :=
  ⟨0, 400, 200, 500, 60, 27, 50, false, true,
    ⟨some POW_ON, some MODE_HEAT, some 18, some 0⟩⟩

/-- Scenario unit A: setpoint 22, room temperature 20, heating, on. -/
def uA6 : Aircon :=
  ⟨⟨some POW_ON, some MODE_HEAT, some 22, some 0⟩, ⟨some 20, some 30⟩, 1400, 200, 200⟩

/-- Scenario unit B: setpoint 22, room temperature 22.5, heating, on. -/
def uB6 : Aircon :=
  ⟨⟨some POW_ON, some MODE_HEAT, some 22, some 0⟩, ⟨some (45 / 2), some 30⟩, 1400, 200, 200⟩

/-- Daikin mode code for cooling. -/
def MODE_COOL : String := "3"

/-- Unit powered on but in cooling mode, for the sanity-gate witness. -/
def uCool : Aircon :=
  ⟨⟨some POW_ON, some MODE_COOL, some 22, some 0⟩, ⟨some 20, some 30⟩, 1400, 200, 200⟩

/-- Unit with the humidifier on at setpoint 22, for the target-zero
counterexample. -/
def uHum : Aircon :=
  ⟨⟨some POW_ON, some MODE_HEAT, some 22, some 50⟩, ⟨some 20, some 30⟩, 1400, 200, 200⟩

/-- Unit at setpoint 10 with a cold room at 5 degrees, for the bounds
counterexample. -/
def uCold : Aircon :=
  ⟨⟨some POW_ON, some MODE_HEAT, some 10, some 0⟩, ⟨some 5, some 30⟩, 1400, 200, 200⟩

/-- Unit A of the dispatch counterexample: setpoint 22, room 22. -/
def uA9 : Aircon :=
  ⟨⟨some POW_ON, some MODE_HEAT, some 22, some 0⟩, ⟨some 20, some 30⟩, 1400, 200, 200⟩

/-- Unit B of the dispatch counterexample: setpoint 20, room 22; it is
active but the decrease run never steps it. -/
def uB9 : Aircon :=
  ⟨⟨some POW_ON, some MODE_HEAT, some 20, some 0⟩, ⟨some 22, some 30⟩, 1400, 200, 200⟩

/-- Unit A of the dispatch counterexample after its single decrease
step, at setpoint 21. -/
def uA9s : Aircon :=
  ⟨⟨some POW_ON, some MODE_HEAT, some 21, some 0⟩, ⟨some 20, some 30⟩, 1400, 200, 200⟩

/-- Result of the dispatch counterexample run: only unit A changed, yet
both units appear in the command list. -/
def resC9 : AllocResult := ⟨[uA9s, uB9], true, [uA9s, uB9]⟩

/-- Expected result of the NaN-cycle witness: target computed as NaN,
no allocation, nothing dispatched, state untouched. -/
def r4 : StepResult := ⟨⟨false, [uA9], some 0⟩, false, some none, false, []⟩

/-- Unit A once the sleep profile has been pushed onto its controls. -/
def uA9sleep : Aircon :=
  ⟨⟨some POW_ON, some MODE_HEAT, some 18, some 0⟩, ⟨some 20, some 30⟩, 1400, 200, 200⟩

/-- Expected result of the sleep-transition witness: asleep, profile
pushed to the single unit, target and allocator skipped. -/
def r8 : StepResult := ⟨⟨true, [uA9sleep], some 0⟩, true, none, false, [uA9sleep]⟩

/-- Dead band (claim C5): strictly inside the load band the target is 0. -/
theorem C5_dead_band (cfg : Config) (acs : List Aircon) (l c : ℚ)
    (h1 : cfg.min_load < l) (h2 : l < cfg.max_load) :
    calculate_target cfg acs (some l) (some c) = some 0 := by
  simp [calculate_target, h1, h2]

/-- Witness for C5 at a concrete input. -/
theorem C5_dead_band_witness :
    (0 : ℚ) < 100 ∧ (100 : ℚ) < 400 ∧
      calculate_target
        ⟨0, 400, 200, 500, 60, 27, 50, true, true, ⟨some POW_ON, some MODE_HEAT, some 18, some 0⟩⟩
        [] (some 100) (some 250) = some 0 :=
  ⟨by norm_num, by norm_num,
    C5_dead_band _ [] 100 250 (by norm_num) (by norm_num)⟩

/-- Boundary behaviour (claim C10): when the grid import equals exactly
`min_load` or exactly `max_load`, the strict dead-band comparisons fail
but so do the two action branches, and the target is 0. -/
theorem C10_band_edges (cfg : Config) (acs : List Aircon) (c : ℚ)
    (hband : cfg.min_load ≤ cfg.max_load) :
    calculate_target cfg acs (some cfg.min_load) (some c) = some 0 ∧
      calculate_target cfg acs (some cfg.max_load) (some c) = some 0 := by
  constructor
  · have h1 : ¬ (cfg.min_load < cfg.min_load ∧ cfg.min_load < cfg.max_load) := by
      intro h; exact lt_irrefl _ h.1
    have h2 : ¬ (cfg.max_load < cfg.min_load ∧ (0 : ℚ) < c) := by
      intro h; exact absurd hband (not_le.mpr h.1)
    have h3 : ¬ (cfg.min_load < cfg.min_load ∧ c < fleet_max_consumption acs) := by
      intro h; exact lt_irrefl _ h.1
    simp [calculate_target, h1, h2, h3]
  · have h1 : ¬ (cfg.min_load < cfg.max_load ∧ cfg.max_load < cfg.max_load) := by
      intro h; exact lt_irrefl _ h.2
    have h2 : ¬ (cfg.max_load < cfg.max_load ∧ (0 : ℚ) < c) := by
      intro h; exact lt_irrefl _ h.1
    have h3 : ¬ (cfg.max_load < cfg.min_load ∧ c < fleet_max_consumption acs) := by
      intro h; exact absurd hband (not_le.mpr h.1)
    simp [calculate_target, h1, h2, h3]

/-- Witness for C10 at a concrete configuration. -/
theorem C10_band_edges_witness :
    (0 : ℚ) ≤ 400 ∧
      calculate_target
        ⟨0, 400, 200, 500, 60, 27, 50, true, true, ⟨some POW_ON, some MODE_HEAT, some 18, some 0⟩⟩
        [] (some 0) (some 250) = some 0 :=
  ⟨by norm_num,
    (C10_band_edges
      ⟨0, 400, 200, 500, 60, 27, 50, true, true, ⟨some POW_ON, some MODE_HEAT, some 18, some 0⟩⟩
      [] 250 (by norm_num)).1⟩

/-- Counterexample to claim C1: with `min_load = 0`, `max_load = 400`,
two units of `max_consumption = 1400` each, `grid_import = -3000` and
`ac_consumption = 2000`, the code returns `min(200 + 3000, 2800) = 2800`,
not the claimed `min(200 + 3000, 2800 - 2000) = 800`; the code does not
subtract the current consumption from the fleet ceiling. -/
theorem C1_counterexample :
    calculate_target
      ⟨0, 400, 200, 500, 60, 27, 50, true, true, ⟨some POW_ON, some MODE_HEAT, some 18, some 0⟩⟩
      [⟨⟨some POW_ON, some MODE_HEAT, some 22, some 0⟩, ⟨some 20, some 30⟩, 1400, 200, 200⟩,
       ⟨⟨some POW_ON, some MODE_HEAT, some 22, some 0⟩, ⟨some 20, some 30⟩, 1400, 200, 200⟩]
      (some (-3000)) (some 2000) = some 2800 ∧
    (2800 : ℚ) ≠ min ((400 + 0) / 2 - (-3000)) (2800 - 2000) := by
  constructor
  · norm_num [calculate_target, fleet_max_consumption]
  · norm_num

/-- Amended claim C1: in the increase branch the code returns
`min(midpoint - grid_import, sum of max_consumption over all units)`;
the fleet ceiling is used directly, the current consumption is not
subtracted from it. -/
theorem C1_increase_branch (cfg : Config) (acs : List Aircon) (l c : ℚ)
    (hband : cfg.min_load ≤ cfg.max_load)
    (hl : l < cfg.min_load) (hc : c < fleet_max_consumption acs) :
    calculate_target cfg acs (some l) (some c) =
      some (min ((cfg.max_load + cfg.min_load) / 2 - l) (fleet_max_consumption acs)) := by
  have h1 : ¬ (cfg.min_load < l ∧ l < cfg.max_load) := by
    intro h; exact absurd hl (not_lt.mpr (le_of_lt h.1))
  have h2 : ¬ (cfg.max_load < l ∧ (0 : ℚ) < c) := by
    intro h; exact absurd (lt_of_le_of_lt hband h.1) (not_lt.mpr (le_of_lt hl))
  simp [calculate_target, h1, h2, hl, hc]

/-- Witness for the amended C1 at the counterexample input. -/
theorem C1_increase_branch_witness :
    (0 : ℚ) ≤ 400 ∧ (-3000 : ℚ) < 0 ∧ (2000 : ℚ) <
      fleet_max_consumption
        [⟨⟨some POW_ON, some MODE_HEAT, some 22, some 0⟩, ⟨some 20, some 30⟩, 1400, 200, 200⟩,
         ⟨⟨some POW_ON, some MODE_HEAT, some 22, some 0⟩, ⟨some 20, some 30⟩, 1400, 200, 200⟩] ∧
    calculate_target
      ⟨0, 400, 200, 500, 60, 27, 50, true, true, ⟨some POW_ON, some MODE_HEAT, some 18, some 0⟩⟩
      [⟨⟨some POW_ON, some MODE_HEAT, some 22, some 0⟩, ⟨some 20, some 30⟩, 1400, 200, 200⟩,
       ⟨⟨some POW_ON, some MODE_HEAT, some 22, some 0⟩, ⟨some 20, some 30⟩, 1400, 200, 200⟩]
      (some (-3000)) (some 2000) =
      some (min ((400 + 0) / 2 - (-3000))
        (fleet_max_consumption
          [⟨⟨some POW_ON, some MODE_HEAT, some 22, some 0⟩, ⟨some 20, some 30⟩, 1400, 200, 200⟩,
           ⟨⟨some POW_ON, some MODE_HEAT, some 22, some 0⟩, ⟨some 20, some 30⟩, 1400, 200, 200⟩])) :=
  ⟨by norm_num, by norm_num, by norm_num [fleet_max_consumption],
    C1_increase_branch _ _ (-3000) 2000 (by norm_num) (by norm_num)
      (by norm_num [fleet_max_consumption])⟩

/-- Getting an in-range element with a default produces a member. -/
theorem getD_mem_of_lt {l : List ℚ} {j : ℕ} (h : j < l.length) : l.getD j 0 ∈ l := by
  rw [List.getD_eq_getElem?_getD, List.getElem?_eq_getElem h, Option.getD_some]
  exact List.getElem_mem h

/-- Reading back through `List.set` with a default. -/
theorem getD_set_eq_ite (l : List ℚ) (i j : ℕ) (a : ℚ) :
    (l.set i a).getD j 0 = if i = j ∧ i < l.length then a else l.getD j 0 := by
  rw [List.getD_eq_getElem?_getD, List.getElem?_set,
    List.getD_eq_getElem?_getD]
  by_cases hij : i = j
  · subst hij
    by_cases hlen : i < l.length
    · simp [hlen]
    · rw [List.getElem?_eq_none (by omega)]
      simp [hlen]
  · simp [hij]

/-- Reading a zipWith list with a default, in range. -/
theorem getD_zipWith (f : ℚ → ℚ → ℚ) (l1 l2 : List ℚ) (j : ℕ)
    (h : j < (List.zipWith f l1 l2).length) :
    (List.zipWith f l1 l2).getD j 0 = f (l1.getD j 0) (l2.getD j 0) := by
  have h1 : j < l1.length := by simp [List.length_zipWith] at h; omega
  have h2 : j < l2.length := by simp [List.length_zipWith] at h; omega
  rw [List.getD_eq_getElem?_getD, List.getElem?_eq_getElem h, Option.getD_some,
    List.getElem_zipWith, List.getD_eq_getElem?_getD, List.getElem?_eq_getElem h1,
    Option.getD_some, List.getD_eq_getElem?_getD, List.getElem?_eq_getElem h2,
    Option.getD_some]

/-- Specification of `lexMinIdx`: the returned index is in range and
holds the returned value. -/
theorem lexMinIdx_spec :
    ∀ (l : List ℚ) (v : ℚ) (j : ℕ), lexMinIdx l = some (v, j) →
      j < l.length ∧ l.getD j 0 = v := by
  intro l
  induction l with
  | nil => intro v j h; simp [lexMinIdx] at h
  | cons x xs ih =>
    intro v j h
    rw [lexMinIdx] at h
    cases h' : lexMinIdx xs with
    | none =>
      simp only [h'] at h
      simp only [Option.some_inj, Prod.mk.injEq] at h
      obtain ⟨rfl, rfl⟩ := h
      simp
    | some p =>
      obtain ⟨w, k⟩ := p
      simp only [h'] at h
      by_cases hw : w < x
      · rw [if_pos hw] at h
        simp only [Option.some_inj, Prod.mk.injEq] at h
        obtain ⟨rfl, rfl⟩ := h
        obtain ⟨hk, hval⟩ := ih w k h'
        exact ⟨by simpa using Nat.succ_lt_succ hk, by simpa using hval⟩
      · rw [if_neg hw] at h
        simp only [Option.some_inj, Prod.mk.injEq] at h
        obtain ⟨rfl, rfl⟩ := h
        simp

/-- Specification of `lexMaxIdx`: the returned index is in range and
holds the returned value. -/
theorem lexMaxIdx_spec :
    ∀ (l : List ℚ) (v : ℚ) (j : ℕ), lexMaxIdx l = some (v, j) →
      j < l.length ∧ l.getD j 0 = v := by
  intro l
  induction l with
  | nil => intro v j h; simp [lexMaxIdx] at h
  | cons x xs ih =>
    intro v j h
    rw [lexMaxIdx] at h
    cases h' : lexMaxIdx xs with
    | none =>
      simp only [h'] at h
      simp only [Option.some_inj, Prod.mk.injEq] at h
      obtain ⟨rfl, rfl⟩ := h
      simp
    | some p =>
      obtain ⟨w, k⟩ := p
      simp only [h'] at h
      by_cases hw : x ≤ w
      · rw [if_pos hw] at h
        simp only [Option.some_inj, Prod.mk.injEq] at h
        obtain ⟨rfl, rfl⟩ := h
        obtain ⟨hk, hval⟩ := ih w k h'
        exact ⟨by simpa using Nat.succ_lt_succ hk, by simpa using hval⟩
      · rw [if_neg hw] at h
        simp only [Option.some_inj, Prod.mk.injEq] at h
        obtain ⟨rfl, rfl⟩ := h
        simp

/-- Half-steps are closed under addition. -/
theorem isHalfStep_add {a b : ℚ} (ha : isHalfStep a) (hb : isHalfStep b) :
    isHalfStep (a + b) := by
  obtain ⟨n, rfl⟩ := ha
  obtain ⟨m, rfl⟩ := hb
  exact ⟨n + m, by push_cast; ring⟩

/-- Half-steps are closed under subtraction. -/
theorem isHalfStep_sub {a b : ℚ} (ha : isHalfStep a) (hb : isHalfStep b) :
    isHalfStep (a - b) := by
  obtain ⟨n, rfl⟩ := ha
  obtain ⟨m, rfl⟩ := hb
  exact ⟨n - m, by push_cast; ring⟩

/-- Every increase step is a half-step (it is 1 or 1/2). -/
theorem isHalfStep_incStepSize (s : ℚ) : isHalfStep (incStepSize s) := by
  unfold incStepSize
  split
  · exact ⟨2, by norm_num⟩
  · exact ⟨1, by norm_num⟩

/-- Every decrease step is a half-step (it is 1 or 1/2). -/
theorem isHalfStep_decStepSize (s d : ℚ) : isHalfStep (decStepSize s d) := by
  unfold decStepSize
  split
  · exact ⟨2, by norm_num⟩
  · exact ⟨1, by norm_num⟩

/-- A half-step setpoint strictly below 30 stays at most 30 after one
increase step. -/
theorem incStep_le_30 {s : ℚ} (hh : isHalfStep s) (hs : s < 30) :
    s + incStepSize s ≤ 30 := by
  unfold incStepSize
  split
  · rename_i hden
    have hint : (s.num : ℚ) = s := (Rat.den_eq_one_iff s).mp hden
    have h2 : s.num < 30 := by
      have h1 : (s.num : ℚ) < 30 := by rw [hint]; exact hs
      exact_mod_cast h1
    have h3 : (s.num : ℚ) + 1 ≤ 30 := by exact_mod_cast (by omega : s.num + 1 ≤ 30)
    rw [← hint]
    exact h3
  · obtain ⟨n, rfl⟩ := hh
    have hn : n < 60 := by
      have h1 : (n : ℚ) < 60 := by linarith
      exact_mod_cast h1
    have h2 : (n : ℚ) + 1 ≤ 60 := by exact_mod_cast (by omega : n + 1 ≤ 60)
    linarith

/-- One decrease step keeps the setpoint strictly above
`htemp - 4`, given the picked margin is positive. -/
theorem decStep_gt {s h d : ℚ} (hd : 0 < d) (heq : s - h + 7 / 2 = d) :
    h - 4 < s - decStepSize s d := by
  unfold decStepSize
  split
  · rename_i hc
    have := hc.2
    linarith
  · linarith

/-- When the increase loop picks an index to step, that index is in
range and its setpoint is strictly below 30. -/
theorem incPick_spec {st ht : List ℚ} {i : ℕ}
    (h : incPick st ht = some (some i)) :
    i < st.length ∧ st.getD i 0 < 30 := by
  unfold incPick at h
  cases h1 : lexMinIdx (List.zipWith (fun s h => s + h) st ht) with
  | none => simp only [h1] at h; exact Option.noConfusion h
  | some p =>
    obtain ⟨v, i0⟩ := p
    simp only [h1] at h
    obtain ⟨hlen0, -⟩ := lexMinIdx_spec _ _ _ h1
    have hi0 : i0 < st.length := by
      simp only [List.length_zipWith] at hlen0; omega
    by_cases h30 : 30 ≤ st.getD i0 0
    · rw [if_pos h30] at h
      cases h2 : lexMinIdx st with
      | none => simp only [h2] at h; exact Option.noConfusion h
      | some q =>
        obtain ⟨m, j⟩ := q
        simp only [h2] at h
        by_cases hm : 30 ≤ m
        · rw [if_pos hm] at h
          simp at h
        · rw [if_neg hm] at h
          simp only [Option.some_inj] at h
          obtain rfl := h
          obtain ⟨hjlen, hjval⟩ := lexMinIdx_spec _ _ _ h2
          exact ⟨hjlen, by rw [hjval]; linarith⟩
    · rw [if_neg h30] at h
      simp only [Option.some_inj] at h
      obtain rfl := h
      exact ⟨hi0, by linarith⟩

/-- When the decrease loop picks an index to step, that index is in
range, the returned margin is positive, and it equals
`stemp - htemp + 3.5` at that index. -/
theorem decPick_spec {st ht : List ℚ} {i : ℕ} {d : ℚ}
    (h : decPick st ht = some (some (i, d))) :
    i < st.length ∧ 0 < d ∧ st.getD i 0 - ht.getD i 0 + 7 / 2 = d := by
  unfold decPick at h
  cases h1 : lexMaxIdx (List.zipWith (fun s h => s - h + 7 / 2) st ht) with
  | none => simp only [h1] at h; exact Option.noConfusion h
  | some p =>
    obtain ⟨v, i0⟩ := p
    simp only [h1] at h
    obtain ⟨hlen0, hval0⟩ := lexMaxIdx_spec _ _ _ h1
    by_cases hv : v ≤ 0
    · rw [if_pos hv] at h
      simp at h
    · rw [if_neg hv] at h
      simp only [Option.some_inj, Prod.mk.injEq] at h
      obtain ⟨rfl, rfl⟩ := h
      have hi0 : i0 < st.length := by
        simp only [List.length_zipWith] at hlen0; omega
      refine ⟨hi0, by linarith, ?_⟩
      rw [← hval0, getD_zipWith _ _ _ _ hlen0]

/-- Invariant of the temperature-raising loop: starting from half-step
setpoints at most 30, every setpoint it returns is a half-step at most
30 (the loop only ever steps a unit that is strictly below 30, by 1 or
1/2). -/
theorem increaseLoop_bounds (ht cpd : List ℚ) :
    ∀ (fuel : ℕ) (st : List ℚ) (t : ℚ) (ch : Bool) (out : List ℚ × ℚ × Bool),
      increaseLoop ht cpd fuel st t ch = some out →
      (∀ x ∈ st, isHalfStep x ∧ x ≤ 30) →
      ∀ x ∈ out.1, isHalfStep x ∧ x ≤ 30 := by
  intro fuel
  induction fuel with
  | zero =>
    intro st t ch out h hinv
    unfold increaseLoop at h
    split at h
    · simp only [Option.some_inj] at h
      obtain rfl := h
      exact hinv
    · simp at h
  | succ fuel ih =>
    intro st t ch out h hinv
    unfold increaseLoop at h
    split at h
    · simp only [Option.some_inj] at h
      obtain rfl := h
      exact hinv
    · cases hp : incPick st ht with
      | none => simp only [hp] at h; exact Option.noConfusion h
      | some o =>
        cases o with
        | none =>
          simp only [hp, Option.some_inj] at h
          obtain rfl := h
          exact hinv
        | some i =>
          simp only [hp] at h
          obtain ⟨hil, hlt⟩ := incPick_spec hp
          have hs := hinv _ (getD_mem_of_lt hil)
          refine ih _ _ _ _ h ?_
          intro x hx
          rcases List.mem_or_eq_of_mem_set hx with hmem | rfl
          · exact hinv x hmem
          · exact ⟨isHalfStep_add hs.1 (isHalfStep_incStepSize _),
              incStep_le_30 hs.1 hlt⟩

/-- Invariant of the temperature-lowering loop: starting from half-step
setpoints, every returned setpoint is a half-step, and each setpoint is
either unchanged or strictly above its room temperature minus 4 degrees
(no absolute floor of 10 exists). -/
theorem decreaseLoop_inv (ht cpd : List ℚ) :
    ∀ (fuel : ℕ) (st : List ℚ) (t : ℚ) (ch : Bool) (out : List ℚ × ℚ × Bool),
      decreaseLoop ht cpd fuel st t ch = some out →
      (∀ x ∈ st, isHalfStep x) →
      (∀ x ∈ out.1, isHalfStep x) ∧
      (∀ j, out.1.getD j 0 = st.getD j 0 ∨ ht.getD j 0 - 4 < out.1.getD j 0) := by
  intro fuel
  induction fuel with
  | zero =>
    intro st t ch out h hinv
    unfold decreaseLoop at h
    split at h
    · simp only [Option.some_inj] at h
      obtain rfl := h
      exact ⟨hinv, fun j => Or.inl rfl⟩
    · simp at h
  | succ fuel ih =>
    intro st t ch out h hinv
    unfold decreaseLoop at h
    split at h
    · simp only [Option.some_inj] at h
      obtain rfl := h
      exact ⟨hinv, fun j => Or.inl rfl⟩
    · cases hp : decPick st ht with
      | none => simp only [hp] at h; exact Option.noConfusion h
      | some o =>
        cases o with
        | none =>
          simp only [hp, Option.some_inj] at h
          obtain rfl := h
          exact ⟨hinv, fun j => Or.inl rfl⟩
        | some q =>
          obtain ⟨i, d⟩ := q
          simp only [hp] at h
          obtain ⟨hil, hd, heq⟩ := decPick_spec hp
          have hs := hinv _ (getD_mem_of_lt hil)
          have hnew : ht.getD i 0 - 4 < st.getD i 0 - decStepSize (st.getD i 0) d :=
            decStep_gt hd heq
          obtain ⟨ihh, ihb⟩ := ih _ _ _ _ h (by
            intro x hx
            rcases List.mem_or_eq_of_mem_set hx with hmem | rfl
            · exact hinv x hmem
            · exact isHalfStep_sub hs (isHalfStep_decStepSize _ _))
          refine ⟨ihh, ?_⟩
          intro j
          rcases ihb j with hj | hj
          · rw [hj, getD_set_eq_ite]
            by_cases hc : i = j ∧ i < st.length
            · rw [if_pos hc]
              right
              rw [← hc.1]
              exact hnew
            · rw [if_neg hc]
              left; rfl
          · right; exact hj


/-- Sanity gate (claim C3): when any unit is powered on with a mode
other than heat, `set_ac_controls` aborts the whole allocation — the
unit list is returned unchanged, no setting change is reported and no
command is dispatched, whatever the target and the other units. -/
theorem C3_mode_gate (cfg : Config) (fuel : ℕ) (acs : List Aircon) (target : ℚ)
    (h : ∃ u ∈ acs, u.controls.pow = some POW_ON ∧ u.controls.mode ≠ some MODE_HEAT) :
    set_ac_controls cfg fuel acs target = some ⟨acs, false, []⟩ := by
  have hb : badModeUnit acs = true := by
    rw [badModeUnit, List.any_eq_true]
    obtain ⟨u, hu, hc⟩ := h
    exact ⟨u, hu, by simpa using hc⟩
  rw [set_ac_controls, if_pos hb]

/-- Witness for C3: one cooling unit next to one heating unit still
aborts the allocation. -/
theorem C3_mode_gate_witness :
    (∃ u ∈ [uA6, uCool], u.controls.pow = some POW_ON ∧ u.controls.mode ≠ some MODE_HEAT) ∧
    set_ac_controls cfg6 5 [uA6, uCool] 300 = some ⟨[uA6, uCool], false, []⟩ := by
  have h : ∃ u ∈ [uA6, uCool], u.controls.pow = some POW_ON ∧ u.controls.mode ≠ some MODE_HEAT := by
    refine ⟨uCool, by simp, rfl, ?_⟩
    simp [uCool, MODE_COOL, MODE_HEAT]
  exact ⟨h, C3_mode_gate cfg6 5 [uA6, uCool] 300 h⟩

/-- Helper: the decrease loop does nothing at a target of zero. -/
theorem decreaseLoop_zero (ht cpd : List ℚ) (fuel : ℕ) (st : List ℚ) :
    decreaseLoop ht cpd fuel st 0 false = some (st, 0, false) := by
  cases fuel <;> simp [decreaseLoop]

/-- Helper: the humidifier-off phase does nothing when humidity control
is disabled. -/
theorem humidityOff_false (ss : List ℚ) : ∀ shs : List ℤ,
    humidityOff false ss shs = (shs, false) := by
  induction ss with
  | nil => intro shs; rfl
  | cons s ss ih =>
    intro shs
    cases shs with
    | nil => rfl
    | cons sh shs => simp [humidityOff, ih]

/-- Helper: the decrease path makes no change at a target of zero when
humidity control is disabled. -/
theorem decrease_zero (cfg : Config) (fuel : ℕ) (acs : List Aircon)
    (h : cfg.control_humidity = false) :
    decrease_temp_for_target cfg fuel acs 0 = some (acs, false) := by
  rw [decrease_temp_for_target, decreaseLoop_zero]
  simp [h, humidityOff_false]

/-- Counterexample to claim C7: calling the allocator with target 0 and
a unit whose humidifier is on (setpoint 22 at or below 26) turns the
humidifier off and reports a change, so the call is not a no-op. -/
theorem C7_counterexample :
    (set_ac_controls cfg6 5 [uHum] 0).map
      (fun r => (r.setting_change, r.units.map fun u => u.controls.shum)) =
      some (true, [some 0]) ∧
    ((true, [(some 0 : Option ℤ)]) ≠ (false, [some 50])) := by
  constructor
  · norm_num [set_ac_controls, badModeUnit, decrease_temp_for_target, decreaseLoop,
      decPick, lexMaxIdx, decStepSize, humidityOff, commitActive, activeP,
      activeStemp, activeHtemp, activeShum, activeCpd, activeHw, cfg6, uHum,
      POW_ON, MODE_HEAT]
  · simp

/-- Amended claim C7: with target 0 the allocator enters the decrease
path, whose temperature loop exits immediately; when humidity control is
disabled it makes no change at all and reports none, but with humidity
control enabled it may still switch humidifiers off (as the
counterexample shows). -/
theorem C7_target_zero (cfg : Config) (fuel : ℕ) (acs : List Aircon)
    (h : cfg.control_humidity = false) :
    set_ac_controls cfg fuel acs 0 = some ⟨acs, false, []⟩ := by
  rw [set_ac_controls]
  by_cases hb : badModeUnit acs = true
  · rw [if_pos hb]
  · rw [if_neg hb, if_neg (lt_irrefl (0 : ℚ)), decrease_zero cfg fuel acs h]
    simp

/-- Witness for the amended C7. -/
theorem C7_target_zero_witness :
    cfgH.control_humidity = false ∧
    set_ac_controls cfgH 5 [uHum] 0 = some ⟨[uHum], false, []⟩ :=
  ⟨rfl, C7_target_zero cfgH 5 [uHum] rfl⟩

/-- Counterexample to claim C2: the decrease path lowers the setpoint of
a unit at 10.0 degrees with a cold room (htemp 5) down to 9.0, which is
outside the claimed range [10, 30]; the loop guard only tracks the
margin to the room temperature, not an absolute floor. -/
theorem C2_counterexample :
    (set_ac_controls cfg6 5 [uCold] (-100)).map
      (fun r => r.units.map fun u => u.controls.stemp) = some [some 9] ∧
    ¬ ((10 : ℚ) ≤ 9) := by
  constructor
  · norm_num [set_ac_controls, badModeUnit, decrease_temp_for_target, decreaseLoop,
      decPick, lexMaxIdx, decStepSize, humidityOff, commitActive, activeP,
      activeStemp, activeHtemp, activeShum, activeCpd, activeHw, cfg6, uCold,
      POW_ON, MODE_HEAT]
  · norm_num

/-- Amended claim C2: every single temperature adjustment of the two
stepping loops is exactly 1 or 1/2 degrees; starting from half-step
setpoints at most 30 the increase loop never drives a setpoint above 30;
the decrease loop keeps setpoints as half-steps and leaves each one
either untouched or strictly above its room temperature minus 4 degrees
— there is no absolute floor of 10 (see the counterexample), and the
overheat guard may move a setpoint by more than one degree. -/
theorem C2_step_bounds :
    (∀ s : ℚ, incStepSize s = 1 ∨ incStepSize s = 1 / 2) ∧
    (∀ s d : ℚ, decStepSize s d = 1 ∨ decStepSize s d = 1 / 2) ∧
    (∀ ht cpd : List ℚ, ∀ (fuel : ℕ) (st : List ℚ) (t : ℚ) (ch : Bool)
      (out : List ℚ × ℚ × Bool),
      increaseLoop ht cpd fuel st t ch = some out →
      (∀ x ∈ st, isHalfStep x ∧ x ≤ 30) →
      ∀ x ∈ out.1, isHalfStep x ∧ x ≤ 30) ∧
    (∀ ht cpd : List ℚ, ∀ (fuel : ℕ) (st : List ℚ) (t : ℚ) (ch : Bool)
      (out : List ℚ × ℚ × Bool),
      decreaseLoop ht cpd fuel st t ch = some out →
      (∀ x ∈ st, isHalfStep x) →
      (∀ x ∈ out.1, isHalfStep x) ∧
      (∀ j, out.1.getD j 0 = st.getD j 0 ∨ ht.getD j 0 - 4 < out.1.getD j 0)) := by
  refine ⟨?_, ?_, increaseLoop_bounds, decreaseLoop_inv⟩
  · intro s
    unfold incStepSize
    split
    · exact Or.inl rfl
    · exact Or.inr rfl
  · intro s d
    unfold decStepSize
    split
    · exact Or.inl rfl
    · exact Or.inr rfl

/-- Witness for the amended C2 on a concrete increase run: one unit at
22 with target 100 is stepped once to 23, and the invariant conclusion
holds on the result. -/
theorem C2_step_bounds_witness :
    increaseLoop [20] [200] 3 [22] 100 false = some ([23], -100, true) ∧
    ∀ x ∈ [(23 : ℚ)], isHalfStep x ∧ x ≤ 30 := by
  have hrun : increaseLoop [20] [200] 3 [22] 100 false = some ([23], -100, true) := by
    norm_num [increaseLoop, incPick, lexMinIdx, incStepSize]
  refine ⟨hrun, ?_⟩
  have h := C2_step_bounds.2.2.1 [20] [200] 3 [22] 100 false ([23], -100, true) hrun
    (by
      intro x hx
      simp only [List.mem_singleton] at hx
      subst hx
      exact ⟨⟨44, by norm_num⟩, by norm_num⟩)
  exact h

/-- Counterexample to claim C6: on the scenario state (both setpoints
22, rooms 20 and 22.5, target 250, 200 W per degree, humidity control
enabled and off) the allocator raises unit A twice, to 24, and never
touches the humidifier; the claimed outcome (A at 23 with the
humidifier turned on) is not what the code computes. -/
theorem C6_counterexample :
    (set_ac_controls cfg6 9 [uA6, uB6] 250).map
      (fun r => r.units.map fun u => (u.controls.stemp, u.controls.shum)) =
      some [(some 24, some 0), (some 22, some 0)] ∧
    ([((some 24 : Option ℚ), (some 0 : Option ℤ)), (some 22, some 0)] ≠
      [(some 23, some 50), (some 22, some 0)]) := by
  constructor
  · norm_num [set_ac_controls, badModeUnit, increase_temp_for_target, increaseLoop,
      incPick, lexMinIdx, incStepSize, overheatGuard, humidityOn, commitActive,
      activeP, activeStemp, activeHtemp, activeShum, activeCpd, activeHw,
      cfg6, uA6, uB6, POW_ON, MODE_HEAT]
  · simp

/-- Amended claim C6: the temperature loop keeps stepping while the
remaining target is positive, so unit A (lower combined metric both
times) is raised twice, to 23 and then 24, leaving a remaining target of
-150; the humidifier phase is skipped because the target is no longer
positive, both changes are committed, the change is reported and
commands are dispatched to both units. -/
theorem C6_two_raises :
    increaseLoop (activeHtemp [uA6, uB6]) (activeCpd [uA6, uB6]) 9
        (activeStemp [uA6, uB6]) 250 false = some ([24, 22], -150, true) ∧
    set_ac_controls cfg6 9 [uA6, uB6] 250 =
      some ⟨[⟨⟨some POW_ON, some MODE_HEAT, some 24, some 0⟩, ⟨some 20, some 30⟩, 1400, 200, 200⟩,
             ⟨⟨some POW_ON, some MODE_HEAT, some 22, some 0⟩, ⟨some (45 / 2), some 30⟩, 1400, 200, 200⟩],
            true,
            [⟨⟨some POW_ON, some MODE_HEAT, some 24, some 0⟩, ⟨some 20, some 30⟩, 1400, 200, 200⟩,
             ⟨⟨some POW_ON, some MODE_HEAT, some 22, some 0⟩, ⟨some (45 / 2), some 30⟩, 1400, 200, 200⟩]⟩ := by
  constructor
  · norm_num [increaseLoop, incPick, lexMinIdx, incStepSize, activeP,
      activeStemp, activeHtemp, activeCpd, uA6, uB6, POW_ON, MODE_HEAT]
  · norm_num [set_ac_controls, badModeUnit, increase_temp_for_target, increaseLoop,
      incPick, lexMinIdx, incStepSize, overheatGuard, humidityOn, commitActive,
      activeP, activeStemp, activeHtemp, activeShum, activeCpd, activeHw,
      cfg6, uA6, uB6, POW_ON, MODE_HEAT]

/-- Counterexample to claim C9: on a decrease run that only modifies
unit A, the resulting unit B is exactly the original (unchanged
controls), yet B appears in the dispatched command list — the unchanged
state is echoed back as a command. -/
theorem C9_counterexample :
    (set_ac_controls cfgH 5 [uA9, uB9] (-100)).map
      (fun r => (r.setting_change, r.units.getD 1 uA9, r.commands.getD 1 uA9)) =
      some (true, uB9, uB9) := by
  norm_num [set_ac_controls, badModeUnit, decrease_temp_for_target, decreaseLoop,
    decPick, lexMaxIdx, decStepSize, humidityOff, commitActive, activeP,
    activeStemp, activeHtemp, activeShum, activeCpd, activeHw, cfgH, uA9, uB9,
    POW_ON, MODE_HEAT]

/-- Amended claim C9: commands are dispatched only in a cycle whose
`setting_change` is true (and operation mode is on), but in such a cycle
the command list is the whole fleet — every unit receives a command,
including units whose controls were not modified. -/
theorem C9_dispatch (cfg : Config) (fuel : ℕ) (acs : List Aircon) (target : ℚ)
    (r : AllocResult) (h : set_ac_controls cfg fuel acs target = some r) :
    (r.commands ≠ [] → r.setting_change = true ∧ cfg.operation = true) ∧
    (r.setting_change = true → cfg.operation = true → r.commands = r.units) := by
  rw [set_ac_controls] at h
  by_cases hb : badModeUnit acs = true
  · rw [if_pos hb] at h
    simp only [Option.some_inj] at h
    subst h
    exact ⟨fun hc => absurd rfl hc, fun hs _ => by simp at hs⟩
  · rw [if_neg hb] at h
    cases hres : (if 0 < target then increase_temp_for_target cfg fuel acs target
                  else decrease_temp_for_target cfg fuel acs target) with
    | none => rw [hres] at h; exact Option.noConfusion h
    | some p =>
      obtain ⟨acs2, changed⟩ := p
      simp only [hres] at h
      cases changed with
      | false =>
        rw [if_pos rfl] at h
        simp only [Option.some_inj] at h
        subst h
        exact ⟨fun hc => absurd rfl hc, fun hs _ => by simp at hs⟩
      | true =>
        rw [if_neg (by decide : ¬ (true = false))] at h
        by_cases hop : cfg.operation = true
        · rw [if_neg (by rw [hop]; simp)] at h
          simp only [Option.some_inj] at h
          subst h
          exact ⟨fun _ => ⟨rfl, hop⟩, fun _ _ => rfl⟩
        · have hopf : cfg.operation = false := by
            cases hcase : cfg.operation
            · rfl
            · exact absurd hcase hop
          rw [if_pos hopf] at h
          simp only [Option.some_inj] at h
          subst h
          exact ⟨fun hc => absurd rfl hc, fun _ hs => absurd hs hop⟩

/-- Witness for the amended C9 at the counterexample run. -/
theorem C9_dispatch_witness :
    set_ac_controls cfgH 5 [uA9, uB9] (-100) = some resC9 ∧
      (resC9.commands ≠ [] → resC9.setting_change = true ∧ cfgH.operation = true) := by
  have hr : set_ac_controls cfgH 5 [uA9, uB9] (-100) = some resC9 := by
    norm_num [set_ac_controls, badModeUnit, decrease_temp_for_target, decreaseLoop,
      decPick, lexMaxIdx, decStepSize, humidityOff, commitActive, activeP,
      activeStemp, activeHtemp, activeShum, activeCpd, activeHw, cfgH, uA9, uB9,
      uA9s, resC9, POW_ON, MODE_HEAT]
  exact ⟨hr, (C9_dispatch cfgH 5 [uA9, uB9] (-100) resC9 hr).1⟩

/-- Helper: NaN grid import propagates through `calculate_target`. -/
theorem calculate_target_nan_left (cfg : Config) (acs : List Aircon)
    (c : Option ℚ) : calculate_target cfg acs none c = none := rfl

/-- Helper: NaN consumption propagates through `calculate_target`. -/
theorem calculate_target_nan_right (cfg : Config) (acs : List Aircon)
    (l : Option ℚ) : calculate_target cfg acs l none = none := by
  cases l <;> rfl

/-- Helper: the sleep/wake transition seen from an awake state. -/
theorem sleepTransition_awake (cfg : Config) (s : LoopState) (p : ℚ)
    (hs : s.is_sleep_mode = false) :
    sleepTransition cfg s (some p) =
      if p ≤ cfg.sleep_threshold then
        (if cfg.operation = true then
          (true, s.acs.map fun u => { u with controls := cfg.sleep_mode_settings }, true)
         else (true, s.acs, false))
      else (false, s.acs, false) := by
  unfold sleepTransition oLe oGe
  rw [hs]
  by_cases hp : p ≤ cfg.sleep_threshold
  · simp [hp]
  · simp [hp]

/-- Helper: the sleep/wake transition seen from an asleep state. -/
theorem sleepTransition_asleep (cfg : Config) (s : LoopState) (p : ℚ)
    (hs : s.is_sleep_mode = true) :
    sleepTransition cfg s (some p) =
      if cfg.wakeup_threshold ≤ p then (false, s.acs, false)
      else (true, s.acs, false) := by
  unfold sleepTransition oLe oGe
  rw [hs]
  by_cases hw : cfg.wakeup_threshold ≤ p
  · simp [hw]
  · simp [hw]

/-- Helper: when the transition does not enter sleep mode, the unit list
is left alone. -/
theorem sleepTransition_not_sleep_acs (cfg : Config) (s : LoopState)
    (pv : Option ℚ) (h : (sleepTransition cfg s pv).1 = false) :
    (sleepTransition cfg s pv).2.1 = s.acs := by
  unfold sleepTransition at h ⊢
  by_cases h1 : (oLe pv cfg.sleep_threshold && !s.is_sleep_mode) = true
  · rw [if_pos h1] at h
    by_cases h2 : cfg.operation = true
    · rw [if_pos h2] at h
      simp at h
    · rw [if_neg h2] at h
      simp at h
  · rw [if_neg h1] at h ⊢
    by_cases h3 : (oGe pv cfg.wakeup_threshold && s.is_sleep_mode) = true
    · rw [if_pos h3]
    · rw [if_neg h3]

/-- Helper: projections of one cycle result — the new sleep flag and
push flag come from the transition, and an asleep result skipped the
target computation and the allocator. -/
theorem read_set_step_proj (cfg : Config) (fuel : ℕ) (s : LoopState)
    (grid pv : Option ℚ) (now : ℚ) (r : StepResult)
    (h : read_set_step cfg fuel s grid pv now = some r) :
    r.state.is_sleep_mode = (sleepTransition cfg s pv).1 ∧
    r.sleepPush = (sleepTransition cfg s pv).2.2 ∧
    (r.state.is_sleep_mode = true →
      r.target = none ∧ r.allocInvoked = false ∧
      r.state.acs = (sleepTransition cfg s pv).2.1) := by
  simp only [read_set_step] at h
  split at h
  · rename_i hc
    simp only [Option.some_inj] at h
    subst h
    exact ⟨hc.symm, rfl, fun _ => ⟨rfl, rfl, rfl⟩⟩
  · rename_i hc
    have hcf : (sleepTransition cfg s pv).1 = false := by
      cases hh : (sleepTransition cfg s pv).1
      · rfl
      · exact absurd hh hc
    split at h
    · split at h
      · exact Option.noConfusion h
      · simp only [Option.some_inj] at h
        subst h
        exact ⟨hcf.symm, rfl, fun hx => by simp at hx⟩
    · simp only [Option.some_inj] at h
      subst h
      exact ⟨hcf.symm, rfl, fun hx => by simp at hx⟩

/-- NaN guard (claim C4): a NaN grid import or consumption makes
`calculate_target` return NaN; a cycle that computed a NaN target never
invokes the allocator, dispatches nothing and leaves the units and the
last-set time untouched, whatever the elapsed time; and a cycle polled
with NaN grid import either skipped the target (asleep) or computed it
as NaN. -/
theorem C4_nan_guard :
    (∀ (cfg : Config) (acs : List Aircon) (c : Option ℚ),
      calculate_target cfg acs none c = none) ∧
    (∀ (cfg : Config) (acs : List Aircon) (l : Option ℚ),
      calculate_target cfg acs l none = none) ∧
    (∀ (cfg : Config) (fuel : ℕ) (s : LoopState) (grid pv : Option ℚ)
      (now : ℚ) (r : StepResult),
      read_set_step cfg fuel s grid pv now = some r → r.target = some none →
      r.allocInvoked = false ∧ r.commands = [] ∧ r.state.acs = s.acs ∧
        r.state.last_set = s.last_set) ∧
    (∀ (cfg : Config) (fuel : ℕ) (s : LoopState) (pv : Option ℚ)
      (now : ℚ) (r : StepResult),
      read_set_step cfg fuel s none pv now = some r →
      r.target = none ∨ r.target = some none) := by
  refine ⟨calculate_target_nan_left, calculate_target_nan_right, ?_, ?_⟩
  · intro cfg fuel s grid pv now r h ht
    simp only [read_set_step] at h
    split at h
    · simp only [Option.some_inj] at h
      subst h
      exact Option.noConfusion ht
    · rename_i hc
      have hcf : (sleepTransition cfg s pv).1 = false := by
        cases hh : (sleepTransition cfg s pv).1
        · rfl
        · exact absurd hh hc
      split at h
      · rename_i hguard
        split at h
        · exact Option.noConfusion h
        · simp only [Option.some_inj] at h
          subst h
          simp only [Option.some_inj] at ht
          rw [ht] at hguard
          exact absurd hguard.2 (by simp [targetActionable])
      · simp only [Option.some_inj] at h
        subst h
        exact ⟨rfl, rfl, sleepTransition_not_sleep_acs cfg s pv hcf, rfl⟩
  · intro cfg fuel s pv now r h
    simp only [read_set_step] at h
    split at h
    · simp only [Option.some_inj] at h
      subst h
      exact Or.inl rfl
    · split at h
      · rename_i hguard
        rw [calculate_target_nan_left] at hguard
        exact absurd hguard.2 (by simp [targetActionable])
      · simp only [Option.some_inj] at h
        subst h
        right
        simp only [calculate_target_nan_left]

/-- Witness for C4 on a concrete awake cycle whose grid poll failed. -/
theorem C4_nan_guard_witness :
    read_set_step cfgH 5 ⟨false, [uA9], some 0⟩ none (some 1000) 1000 = some r4 ∧
    r4.target = some none ∧ r4.allocInvoked = false := by
  have hr : read_set_step cfgH 5 ⟨false, [uA9], some 0⟩ none (some 1000) 1000 = some r4 := by
    norm_num [read_set_step, sleepTransition, oLe, oGe, estimate_ac_consumption,
      get_consumption, calculate_target, targetActionable, cfgH, uA9, r4,
      POW_ON, MODE_HEAT]
  exact ⟨hr, rfl,
    (C4_nan_guard.2.2.1 cfgH 5 ⟨false, [uA9], some 0⟩ none (some 1000) 1000 r4 hr rfl).1⟩

/-- Sleep and wake transitions (claim C8): from an awake state the cycle
goes asleep exactly when the PV reading is at most the sleep threshold
(pushing the sleep profile onto every unit when operation mode is on);
from an asleep state it wakes exactly when the reading is at least the
wakeup threshold; no push happens from an asleep state; and a cycle that
ends asleep skips the target computation and the allocator entirely. -/
theorem C8_sleep_wake (cfg : Config) (fuel : ℕ) (s : LoopState) (p : ℚ)
    (grid : Option ℚ) (now : ℚ) (r : StepResult)
    (h : read_set_step cfg fuel s grid (some p) now = some r) :
    (s.is_sleep_mode = false →
      (r.state.is_sleep_mode = true ↔ p ≤ cfg.sleep_threshold)) ∧
    (s.is_sleep_mode = false → p ≤ cfg.sleep_threshold → cfg.operation = true →
      r.sleepPush = true ∧
      r.state.acs = s.acs.map fun u => { u with controls := cfg.sleep_mode_settings }) ∧
    (s.is_sleep_mode = true →
      (r.state.is_sleep_mode = false ↔ cfg.wakeup_threshold ≤ p)) ∧
    (s.is_sleep_mode = true → r.sleepPush = false) ∧
    (r.state.is_sleep_mode = true → r.target = none ∧ r.allocInvoked = false) := by
  obtain ⟨h1, h2, h3⟩ := read_set_step_proj cfg fuel s grid (some p) now r h
  refine ⟨?_, ?_, ?_, ?_, fun hx => ⟨(h3 hx).1, (h3 hx).2.1⟩⟩
  · intro hs
    rw [h1, sleepTransition_awake cfg s p hs]
    by_cases hp : p ≤ cfg.sleep_threshold
    · rw [if_pos hp]
      constructor
      · intro _; exact hp
      · intro _
        by_cases hop : cfg.operation = true
        · rw [if_pos hop]
        · rw [if_neg hop]
    · rw [if_neg hp]
      exact ⟨fun hx => by simp at hx, fun hx => absurd hx hp⟩
  · intro hs hp hop
    have htr := sleepTransition_awake cfg s p hs
    have htr1 : (sleepTransition cfg s (some p)).1 = true := by
      rw [htr, if_pos hp, if_pos hop]
    constructor
    · rw [h2, htr, if_pos hp, if_pos hop]
    · have hacs := (h3 (by rw [h1, htr1])).2.2
      rw [hacs, htr, if_pos hp, if_pos hop]
  · intro hs
    rw [h1, sleepTransition_asleep cfg s p hs]
    by_cases hw : cfg.wakeup_threshold ≤ p
    · rw [if_pos hw]
      exact ⟨fun _ => hw, fun _ => rfl⟩
    · rw [if_neg hw]
      exact ⟨fun hx => by simp at hx, fun hx => absurd hx hw⟩
  · intro hs
    rw [h2, sleepTransition_asleep cfg s p hs]
    by_cases hw : cfg.wakeup_threshold ≤ p
    · rw [if_pos hw]
    · rw [if_neg hw]

/-- Witness for C8: an awake cycle polled at PV 0 (at most the sleep
threshold 200) ends asleep, having pushed the sleep profile. -/
theorem C8_sleep_wake_witness :
    read_set_step cfg6 5 ⟨false, [uA9], some 0⟩ (some 100) (some 0) 3 = some r8 ∧
    (r8.state.is_sleep_mode = true ↔ (0 : ℚ) ≤ cfg6.sleep_threshold) := by
  have hr : read_set_step cfg6 5 ⟨false, [uA9], some 0⟩ (some 100) (some 0) 3 = some r8 := by
    norm_num [read_set_step, sleepTransition, oLe, oGe, estimate_ac_consumption,
      get_consumption, calculate_target, targetActionable, cfg6, uA9, uA9sleep, r8,
      POW_ON, MODE_HEAT]
  exact ⟨hr, (C8_sleep_wake cfg6 5 ⟨false, [uA9], some 0⟩ 0 (some 100) 3 r8 hr).1 rfl⟩
